import Mathlib

/-!
Verification of the mstd reference-counting subsystem
(include/mstd/refcount.hpp) against its specification.

The embedding models the heap of counted objects as maps from addresses
to per-object state:
  - refs a  : the value of the atomic counter `refcounted::references`
              of the object at address a;
  - live a  : whether the object at a is currently allocated;
  - frees a : how many times the object allocated at a has been
              deallocated (by the `delete object` in decrement_refcount);
  - incs a  : how many times increment_refcount has been invoked on the
              object currently allocated at a.
A `refcount_ptr` is modelled by its single data member `object`
(refcount.hpp line 75), a nullable address.  `unwrap` (lines 228-229) is
a pure address projection, modelled as an arbitrary function on
addresses (identity for natively counted payloads, box-to-payload
projection for wrapped ones); in the flat address model a successful
static or dynamic cast keeps the object address.
-/

namespace Mstd

abbrev Addr := Nat

/-- Pointwise update of a Nat-valued map. -/
def upd (f : Addr → Nat) (a : Addr) (v : Nat) : Addr → Nat :=
  fun x => if x = a then v else f x

/-- Pointwise update of a Bool-valued map. -/
def updB (f : Addr → Bool) (a : Addr) (v : Bool) : Addr → Bool :=
  fun x => if x = a then v else f x

/-- The heap of counted objects. -/
structure Heap where
  refs : Addr → Nat
  live : Addr → Bool
  frees : Addr → Nat
  incs : Addr → Nat

def emptyHeap : Heap := ⟨fun _ => 0, fun _ => false, fun _ => 0, fun _ => 0⟩

/-- `increment_refcount` (refcount.hpp lines 24-26): `++object->references`,
returning the new value.  The model additionally counts the call in `incs`. -/
def increment_refcount (a : Addr) (h : Heap) : Heap × Nat :=
  (⟨upd h.refs a (h.refs a + 1), h.live, h.frees, upd h.incs a (h.incs a + 1)⟩,
   h.refs a + 1)

/-- `decrement_refcount` (refcount.hpp lines 28-33): `--references`; if the
new value is zero, `delete object` (modelled: live becomes false and the
deallocation counter `frees` is bumped). -/
def decrement_refcount (a : Addr) (h : Heap) : Heap × Nat :=
  let n := h.refs a - 1
  if n = 0 then
    (⟨upd h.refs a 0, updB h.live a false, upd h.frees a (h.frees a + 1), h.incs⟩, 0)
  else
    (⟨upd h.refs a n, h.live, h.frees, h.incs⟩, n)

/-- Free function `use_count` (refcount.hpp lines 36-38): reads the counter. -/
def use_count (a : Addr) (h : Heap) : Nat := h.refs a

/-- A `refcount_ptr` is its `object` member (refcount.hpp line 75): a
nullable pointer to the counted object. -/
abbrev RcPtr := Option Addr

/-- Allocation of a fresh counted object (`new`, via `std::make_unique` in
`make_refcount`): the member initializer `references{1}` (refcount.hpp
line 11) starts the counter at 1.  The fresh object has experienced no
increments and no deallocations. -/
def alloc (a : Addr) (h : Heap) : Heap :=
  ⟨upd h.refs a 1, updB h.live a true, upd h.frees a 0, upd h.incs a 0⟩

/-- `refcount_ptr::use_count` (refcount.hpp lines 203-205):
`object ? mstd::use_count(object) : 0`. -/
def rcUseCount (p : RcPtr) (h : Heap) : Nat :=
  match p with
  | none => 0
  | some a => use_count a h

/-- Copy constructor (refcount.hpp lines 90-92): adopt the same object and
increment if non-null. -/
def copyCtor (p : RcPtr) (h : Heap) : RcPtr × Heap :=
  match p with
  | none => (none, h)
  | some a => (some a, (increment_refcount a h).1)

/-- Move constructor (refcount.hpp lines 94-96): steal the object, null the
source, no counter access.  Returns (destination, source-afterwards). -/
def moveCtor (p : RcPtr) : RcPtr × RcPtr := (p, none)

/-- Destructor (refcount.hpp lines 183-185): decrement if non-null. -/
def rcDestroy (p : RcPtr) (h : Heap) : Heap :=
  match p with
  | none => h
  | some a => (decrement_refcount a h).1

/-- Converting constructor from `std::unique_ptr` (refcount.hpp lines
98-104): adopts the released pointer with no counter access. -/
def fromUnique (a : Addr) : RcPtr := some a

/-- `make_refcount` (refcount.hpp lines 286-289): `std::make_unique` of the
counted type, implicitly converted to a `refcount_ptr` via `fromUnique`. -/
def make_refcount (a : Addr) (h : Heap) : RcPtr × Heap :=
  (fromUnique a, alloc a h)

/-- Raw-pointer assignment `operator=(refcounted_type *)` (refcount.hpp
lines 132-139): guarded by `other != object`; decrement the old referent,
adopt, increment the new referent.  The copy-assignment operator (lines
141-143) forwards here with `other.object`. -/
def assignRaw (p other : RcPtr) (h : Heap) : RcPtr × Heap :=
  if other = p then (p, h)
  else
    let h1 := match p with
      | none => h
      | some a => (decrement_refcount a h).1
    let h2 := match other with
      | none => h1
      | some b => (increment_refcount b h1).1
    (other, h2)

/-- An environment of `refcount_ptr` instances, indexed by slot: needed to
express instance identity (`&other != this`). -/
abbrev PtrEnv := Nat → RcPtr

/-- Copy assignment `operator=(refcount_ptr const &)` (refcount.hpp lines
141-143) of slot j into slot i: forwards to the raw-pointer assignment. -/
def copyAssignSlots (i j : Nat) (e : PtrEnv) (h : Heap) : PtrEnv × Heap :=
  let r := assignRaw (e i) (e j) h
  (fun x => if x = i then r.1 else e x, r.2)

/-- Move assignment `operator=(refcount_ptr &&)` (refcount.hpp lines
145-152) of slot j into slot i: guarded by `&other != this`; decrement
the destination's old referent, steal, null the source. -/
def moveAssignSlots (i j : Nat) (e : PtrEnv) (h : Heap) : PtrEnv × Heap :=
  if j = i then (e, h)
  else
    let h1 := match e i with
      | none => h
      | some a => (decrement_refcount a h).1
    (fun x => if x = i then e j else if x = j then none else e x, h1)

/-- `static_pointer_cast` body (refcount.hpp lines 232-239) acting on its
by-value parameter: `p2.object = static_cast(p.object)` (address-preserving
in the flat model), `p.object = nullptr`.  Returns
(result, parameter-afterwards, heap). -/
def static_pointer_cast (p : RcPtr) (h : Heap) : RcPtr × RcPtr × Heap :=
  (p, none, h)

/-- A call `static_pointer_cast(std::move(src))`: the by-value parameter is
move-constructed from the source (nulling it), the body runs, and the
parameter (already null) is destroyed on return. -/
def staticCastCallMove (src : RcPtr) (h : Heap) : RcPtr × RcPtr × Heap :=
  let m := moveCtor src
  let r := static_pointer_cast m.1 h
  (r.1, m.2, rcDestroy r.2.1 r.2.2)

/-- Rvalue `dynamic_pointer_cast` (refcount.hpp lines 247-254):
`p2.object = dynamic_cast(p.object); if (p2.object) p.object = nullptr`.
`ok a` tells whether the runtime type of the object at a matches the
target type (on success `dynamic_cast` keeps the object's address in the
flat model).  Returns (result, source-afterwards, heap). -/
def dynCastRv (ok : Addr → Bool) (p : RcPtr) (h : Heap) : RcPtr × RcPtr × Heap :=
  let p2 : RcPtr := match p with
    | none => none
    | some a => if ok a then some a else none
  match p2 with
  | some b => (some b, none, h)
  | none => (none, p, h)

/-- `get` (refcount.hpp lines 187-189): unwraps the stored object pointer to
the payload address; u is the unwrap projection (lines 228-229). -/
def rcGet (u : Addr → Addr) (p : RcPtr) : Option Addr := p.map u

/-- `operator bool` (refcount.hpp lines 191-193). -/
def rcBool (p : RcPtr) : Bool := p.isSome

/-- `operator==` on two pointers (refcount.hpp lines 256-259):
`a.get() == b.get()`. -/
def ptrEq (u : Addr → Addr) (p q : RcPtr) : Bool := rcGet u p == rcGet u q

/-- `operator==` against `nullptr` (refcount.hpp lines 266-274): `!bool(p)`,
identical in both argument orders. -/
def ptrEqNull (p : RcPtr) : Bool := !rcBool p

/-- `release_unique` (refcount.hpp lines 211-216): if `use_count() != 1`
return null; otherwise hand the object to a `unique_ptr` and null the
pointer, with no counter access.  Returns
(returned unique handle, pointer-afterwards, heap). -/
def release_unique (p : RcPtr) (h : Heap) : Option Addr × RcPtr × Heap :=
  if rcUseCount p h ≠ 1 then (none, p, h)
  else (p, none, h)

/-- n successive copy-constructions of a pointer to the object at a. -/
def copyCtorN : Nat → Addr → Heap → Heap
  | 0, _, h => h
  | n + 1, a, h => (copyCtor (some a) (copyCtorN n a h)).2

/-- n successive destructions of pointers to the object at a. -/
def destroyN : Nat → Addr → Heap → Heap
  | 0, _, h => h
  | n + 1, a, h => rcDestroy (some a) (destroyN n a h)

/-- C5: the pointer returned by the factory make reports an observed count
of exactly 1. -/
theorem make_refcount_observe_one (a : Addr) (h : Heap) :
    rcUseCount (make_refcount a h).1 (make_refcount a h).2 = 1 := by
  simp [make_refcount, fromUnique, rcUseCount, use_count, alloc, upd]

/-- C1: the consuming static cast on a non-null pointer preserves the
unwrapped address (get), leaves the heap (so the object's counter) exactly
as it was — transferring the ownership unit rather than duplicating it —
nulls the source, and hands the unit to the (non-null) result. -/
theorem static_cast_transfers_unit (u : Addr → Addr) (a : Addr) (h : Heap) :
    staticCastCallMove (some a) h = (some a, none, h) ∧
    rcGet u (staticCastCallMove (some a) h).1 = rcGet u (some a) := by
  constructor <;> rfl

/-- C2 counterexample: a freshly allocated counted object does not start at
count 0 — the member initializer makes it start at 1 — and zero, not one,
increments of its counter have occurred by the time make_refcount returns
(the unique-ptr conversion adopts without incrementing). -/
theorem fresh_count_not_zero :
    ¬ ((alloc 0 emptyHeap).refs 0 = 0 ∧
       ((make_refcount 0 emptyHeap).2).incs 0 = 1) := by
  decide

/-- C2 amended: a freshly allocated counted object starts with a reference
count of 1, and the factory's wrap-into-a-pointer step adopts it without
incrementing, so no increment at all has occurred on the new object's
counter by the time the factory returns; the returned pointer nevertheless
observes a count of exactly 1. -/
theorem fresh_count_one_no_increment (a : Addr) (h : Heap) :
    (alloc a h).refs a = 1 ∧
    ((make_refcount a h).2).incs a = 0 ∧
    rcUseCount (make_refcount a h).1 (make_refcount a h).2 = 1 := by
  refine ⟨?_, ?_, ?_⟩ <;>
    simp [alloc, make_refcount, fromUnique, rcUseCount, use_count, upd]

/-- C4: the consuming (rvalue) dynamic cast on a non-null pointer: on a
runtime type match it transfers the unit — the result holds the same
object, the source is nulled, the heap (hence the counter) is unchanged;
on a failed match the result is null and the source and heap are left
fully intact. -/
theorem dyn_cast_rv_spec (ok : Addr → Bool) (a : Addr) (h : Heap) :
    (ok a = true → dynCastRv ok (some a) h = (some a, none, h)) ∧
    (ok a = false → dynCastRv ok (some a) h = (none, some a, h)) := by
  constructor <;> intro hok <;> simp [dynCastRv, hok]

/-- C4 witness: both branches at concrete inputs. -/
theorem dyn_cast_rv_spec_witness :
    dynCastRv (fun _ => true) (some 0) emptyHeap = (some 0, none, emptyHeap) ∧
    dynCastRv (fun _ => false) (some 0) emptyHeap = (none, some 0, emptyHeap) :=
  ⟨(dyn_cast_rv_spec (fun _ => true) 0 emptyHeap).1 rfl,
   (dyn_cast_rv_spec (fun _ => false) 0 emptyHeap).2 rfl⟩

/-- C10: release_unique hands out the object as a non-null single-owner
handle and nulls the pointer exactly when the observed count is 1; in
every other case (empty pointer, or count different from 1) it returns
null and leaves the pointer and the heap completely unchanged. -/
theorem release_unique_spec (p : RcPtr) (h : Heap) :
    (rcUseCount p h = 1 →
      (release_unique p h).1 = p ∧ (release_unique p h).1.isSome = true ∧
      (release_unique p h).2.1 = none ∧ (release_unique p h).2.2 = h) ∧
    (rcUseCount p h ≠ 1 → release_unique p h = (none, p, h)) := by
  refine ⟨fun h1 => ?_, fun h1 => ?_⟩
  · cases p with
    | none => simp [rcUseCount] at h1
    | some a => simp [release_unique, h1]
  · simp [release_unique, h1]

/-- C10 witness: the unique case at count 1 and the refusal case on an
empty pointer. -/
theorem release_unique_spec_witness :
    ((release_unique (some 0) (alloc 0 emptyHeap)).1 = some 0 ∧
     (release_unique (some 0) (alloc 0 emptyHeap)).1.isSome = true ∧
     (release_unique (some 0) (alloc 0 emptyHeap)).2.1 = none ∧
     (release_unique (some 0) (alloc 0 emptyHeap)).2.2 = alloc 0 emptyHeap) ∧
    release_unique none emptyHeap = (none, none, emptyHeap) :=
  ⟨(release_unique_spec (some 0) (alloc 0 emptyHeap)).1 (by decide),
   (release_unique_spec none emptyHeap).2 (by decide)⟩

/-- C9: two pointers compare equal iff their unwrapped payload addresses
(get) are equal, for any unwrap projection u and any element types; a
pointer compares equal to the null sentinel iff it is empty. -/
theorem ptrEq_iff_get_eq (u : Addr → Addr) (p q r : RcPtr) :
    (ptrEq u p q = true ↔ rcGet u p = rcGet u q) ∧
    (ptrEqNull r = true ↔ r = none) := by
  constructor
  · simp [ptrEq]
  · cases r <;> simp [ptrEqNull, rcBool]

/-- Decrementing the counter of one object leaves every other address's
state untouched. -/
theorem decrement_refcount_other (a b : Addr) (h : Heap) (hne : a ≠ b) :
    ((decrement_refcount b h).1).refs a = h.refs a ∧
    ((decrement_refcount b h).1).frees a = h.frees a ∧
    ((decrement_refcount b h).1).live a = h.live a := by
  by_cases hc : h.refs b - 1 = 0 <;>
    simp [decrement_refcount, hc, upd, updB, hne]

/-- n copy-constructions add n to the counter and touch neither the
deallocation record nor liveness. -/
theorem copyCtorN_spec (n : Nat) (a : Addr) (h : Heap) :
    (copyCtorN n a h).refs a = h.refs a + n ∧
    (copyCtorN n a h).frees a = h.frees a ∧
    (copyCtorN n a h).live a = h.live a := by
  induction n with
  | zero => simp [copyCtorN]
  | succ n ih =>
      simp only [copyCtorN, copyCtor, increment_refcount]
      refine ⟨?_, ?_, ?_⟩
      · simp [upd, ih.1]; omega
      · simp [upd, ih.2.1]
      · simp [upd, ih.2.2]

/-- While strictly fewer destructions than the counter's value have
happened, each destruction just decrements: no deallocation occurs and
the object stays live. -/
theorem destroyN_spec (j : Nat) (a : Addr) (h : Heap) :
    j < h.refs a →
    (destroyN j a h).refs a = h.refs a - j ∧
    (destroyN j a h).frees a = h.frees a ∧
    (destroyN j a h).live a = h.live a := by
  induction j with
  | zero => intro _; simp [destroyN]
  | succ j ih =>
      intro hj
      obtain ⟨h1, h2, h3⟩ := ih (Nat.lt_of_succ_lt hj)
      have hne : ¬ ((destroyN j a h).refs a - 1 = 0) := by rw [h1]; omega
      simp only [destroyN, rcDestroy, decrement_refcount]
      rw [if_neg hne]
      refine ⟨?_, ?_, ?_⟩
      · simp [upd, h1]; omega
      · simpa using h2
      · simpa using h3

/-- C3: starting from the factory's single handle to a fresh object and
copy-constructing up to k handles, destroying the k handles deallocates
the object exactly once, and only at the destruction of the last handle:
after any j < k destructions nothing has been freed and the object is
live; after all k the counter is 0, exactly one deallocation has
happened, and the object is gone. -/
theorem k_handles_free_exactly_once (k : Nat) (hk : 1 ≤ k) (a : Addr) (h : Heap) :
    (∀ j, j < k →
      (destroyN j a (copyCtorN (k - 1) a (alloc a h))).frees a = 0 ∧
      (destroyN j a (copyCtorN (k - 1) a (alloc a h))).live a = true) ∧
    (destroyN k a (copyCtorN (k - 1) a (alloc a h))).refs a = 0 ∧
    (destroyN k a (copyCtorN (k - 1) a (alloc a h))).frees a = 1 ∧
    (destroyN k a (copyCtorN (k - 1) a (alloc a h))).live a = false := by
  obtain ⟨m, rfl⟩ : ∃ m, k = m + 1 := ⟨k - 1, by omega⟩
  simp only [Nat.add_sub_cancel]
  have hsetup := copyCtorN_spec m a (alloc a h)
  have hrefs : (copyCtorN m a (alloc a h)).refs a = m + 1 := by
    rw [hsetup.1]; simp [alloc, upd]; omega
  have hfrees0 : (copyCtorN m a (alloc a h)).frees a = 0 := by
    rw [hsetup.2.1]; simp [alloc, upd]
  have hlive : (copyCtorN m a (alloc a h)).live a = true := by
    rw [hsetup.2.2]; simp [alloc, updB]
  constructor
  · intro j hj
    obtain ⟨_, f2, f3⟩ := destroyN_spec j a (copyCtorN m a (alloc a h))
      (by rw [hrefs]; exact hj)
    exact ⟨by rw [f2, hfrees0], by rw [f3, hlive]⟩
  · obtain ⟨g1, g2, g3⟩ := destroyN_spec m a (copyCtorN m a (alloc a h))
      (by rw [hrefs]; omega)
    have hone : (destroyN m a (copyCtorN m a (alloc a h))).refs a = 1 := by
      rw [g1, hrefs]; omega
    have hfr : (destroyN m a (copyCtorN m a (alloc a h))).frees a = 0 := by
      rw [g2, hfrees0]
    simp [destroyN, rcDestroy, decrement_refcount, hone, hfr, upd, updB]

/-- C3 witness: three handles to one object, destroyed one by one. -/
theorem k_handles_free_exactly_once_witness :
    1 ≤ 3 ∧
    ((∀ j, j < 3 →
      (destroyN j 0 (copyCtorN (3 - 1) 0 (alloc 0 emptyHeap))).frees 0 = 0 ∧
      (destroyN j 0 (copyCtorN (3 - 1) 0 (alloc 0 emptyHeap))).live 0 = true) ∧
     (destroyN 3 0 (copyCtorN (3 - 1) 0 (alloc 0 emptyHeap))).refs 0 = 0 ∧
     (destroyN 3 0 (copyCtorN (3 - 1) 0 (alloc 0 emptyHeap))).frees 0 = 1 ∧
     (destroyN 3 0 (copyCtorN (3 - 1) 0 (alloc 0 emptyHeap))).live 0 = false) :=
  ⟨by decide, k_handles_free_exactly_once 3 (by decide) 0 emptyHeap⟩

/-- C6: copy-constructing from a non-null pointer raises the observed
count by exactly 1, reported identically through the original and the
copy; destroying the copy restores the original's observed count, frees
nothing and leaves liveness untouched. -/
theorem copy_destroy_roundtrip (a : Addr) (h : Heap) (hpos : 1 ≤ h.refs a) :
    rcUseCount (some a) (copyCtor (some a) h).2 = h.refs a + 1 ∧
    rcUseCount (copyCtor (some a) h).1 (copyCtor (some a) h).2 = h.refs a + 1 ∧
    rcUseCount (some a) (rcDestroy (copyCtor (some a) h).1 (copyCtor (some a) h).2)
      = h.refs a ∧
    (rcDestroy (copyCtor (some a) h).1 (copyCtor (some a) h).2).frees a = h.frees a ∧
    (rcDestroy (copyCtor (some a) h).1 (copyCtor (some a) h).2).live a = h.live a := by
  have hne : ¬ (h.refs a = 0) := by omega
  refine ⟨?_, ?_, ?_, ?_, ?_⟩ <;>
    simp [copyCtor, increment_refcount, rcDestroy, decrement_refcount,
          rcUseCount, use_count, upd, hne]

/-- C6 witness: the round trip on a freshly made object. -/
theorem copy_destroy_roundtrip_witness :
    1 ≤ (alloc 0 emptyHeap).refs 0 ∧
    (rcUseCount (some 0) (copyCtor (some 0) (alloc 0 emptyHeap)).2
       = (alloc 0 emptyHeap).refs 0 + 1 ∧
     rcUseCount (copyCtor (some 0) (alloc 0 emptyHeap)).1
       (copyCtor (some 0) (alloc 0 emptyHeap)).2 = (alloc 0 emptyHeap).refs 0 + 1 ∧
     rcUseCount (some 0)
       (rcDestroy (copyCtor (some 0) (alloc 0 emptyHeap)).1
         (copyCtor (some 0) (alloc 0 emptyHeap)).2) = (alloc 0 emptyHeap).refs 0 ∧
     (rcDestroy (copyCtor (some 0) (alloc 0 emptyHeap)).1
       (copyCtor (some 0) (alloc 0 emptyHeap)).2).frees 0 = (alloc 0 emptyHeap).frees 0 ∧
     (rcDestroy (copyCtor (some 0) (alloc 0 emptyHeap)).1
       (copyCtor (some 0) (alloc 0 emptyHeap)).2).live 0 = (alloc 0 emptyHeap).live 0) :=
  ⟨by decide, copy_destroy_roundtrip 0 (alloc 0 emptyHeap) (by decide)⟩

/-- A heap whose object at address 0 has counter value 2. -/
def heapTwo : Heap := (increment_refcount 0 (alloc 0 emptyHeap)).1

/-- Two pointer slots that both reference the object at address 0. -/
def envAlias : PtrEnv := fun _ => some 0

/-- C7 counterexample: move-assigning between two distinct handles that
reference the same object (counter at 2) does change the referenced
object's counter (the destination's old unit is released), and the
destination's observed count afterwards is 1, not the source's pre-move
value 2. -/
theorem move_assign_alias_changes_count :
    ¬ ((moveAssignSlots 0 1 envAlias heapTwo).2.refs 0 = heapTwo.refs 0 ∧
       rcUseCount ((moveAssignSlots 0 1 envAlias heapTwo).1 0)
         (moveAssignSlots 0 1 envAlias heapTwo).2
         = rcUseCount (envAlias 1) heapTwo) := by
  decide

/-- C7 amended: for a non-null source, move-construction relocates the
pointer and nulls the source with no heap access at all; move-assignment
into a distinct handle that is empty or references a different object
leaves the referenced object's counter (and deallocation record)
unchanged, gives the destination the source's pre-move observed count,
and nulls the source, whose observed count is then 0. -/
theorem move_transfers_without_count_change (a : Addr) (h : Heap) (i j : Nat)
    (e : PtrEnv) (hij : j ≠ i) (hsrc : e j = some a)
    (hdst : ∀ b, e i = some b → b ≠ a) :
    moveCtor (e j) = (some a, none) ∧
    rcUseCount ((moveAssignSlots i j e h).1 i) (moveAssignSlots i j e h).2
      = rcUseCount (e j) h ∧
    (moveAssignSlots i j e h).1 j = none ∧
    rcUseCount ((moveAssignSlots i j e h).1 j) (moveAssignSlots i j e h).2 = 0 ∧
    (moveAssignSlots i j e h).2.refs a = h.refs a ∧
    (moveAssignSlots i j e h).2.frees a = h.frees a := by
  have hheap : (moveAssignSlots i j e h).2.refs a = h.refs a ∧
      (moveAssignSlots i j e h).2.frees a = h.frees a := by
    cases hei : e i with
    | none => simp [moveAssignSlots, hij, hei]
    | some b =>
        have hab : a ≠ b := Ne.symm (hdst b hei)
        have hd := decrement_refcount_other a b h hab
        simp [moveAssignSlots, hij, hei, hd.1, hd.2.1]
  have henvi : (moveAssignSlots i j e h).1 i = e j := by
    simp [moveAssignSlots, hij]
  have henvj : (moveAssignSlots i j e h).1 j = none := by
    simp [moveAssignSlots, hij]
  refine ⟨by rw [hsrc]; rfl, ?_, henvj, ?_, hheap.1, hheap.2⟩
  · rw [henvi, hsrc]
    simp [rcUseCount, use_count, hheap.1]
  · rw [henvj]
    rfl

/-- A source slot at index 1 referencing address 0, with an empty
destination slot at index 0. -/
def envMoveW : PtrEnv := fun x => if x = 1 then some 0 else none

/-- C7 amended witness: move-assign the sole handle to a fresh object into
an empty slot. -/
theorem move_transfers_without_count_change_witness :
    (1 ≠ 0) ∧ envMoveW 1 = some 0 ∧ (∀ b, envMoveW 0 = some b → b ≠ 0) ∧
    (moveCtor (envMoveW 1) = (some 0, none) ∧
     rcUseCount ((moveAssignSlots 0 1 envMoveW (alloc 0 emptyHeap)).1 0)
       (moveAssignSlots 0 1 envMoveW (alloc 0 emptyHeap)).2
       = rcUseCount (envMoveW 1) (alloc 0 emptyHeap) ∧
     (moveAssignSlots 0 1 envMoveW (alloc 0 emptyHeap)).1 1 = none ∧
     rcUseCount ((moveAssignSlots 0 1 envMoveW (alloc 0 emptyHeap)).1 1)
       (moveAssignSlots 0 1 envMoveW (alloc 0 emptyHeap)).2 = 0 ∧
     (moveAssignSlots 0 1 envMoveW (alloc 0 emptyHeap)).2.refs 0
       = (alloc 0 emptyHeap).refs 0 ∧
     (moveAssignSlots 0 1 envMoveW (alloc 0 emptyHeap)).2.frees 0
       = (alloc 0 emptyHeap).frees 0) :=
  ⟨by decide, rfl, fun b hb => by simp [envMoveW] at hb,
   move_transfers_without_count_change 0 (alloc 0 emptyHeap) 0 1 envMoveW
     (by decide) rfl (fun b hb => by simp [envMoveW] at hb)⟩

/-- C8: copy-assigning a value with the identical referent (the raw
comparison guard) and move-assigning a handle from itself (the
same-instance guard) are complete no-ops: every pointer slot and the
whole heap — counters, deallocation record, liveness — are unchanged, so
no transient decrement ever happens. -/
theorem self_assignment_noop (i j : Nat) (e : PtrEnv) (h : Heap)
    (hsame : e i = e j) :
    (∀ x, (copyAssignSlots i j e h).1 x = e x) ∧
    (copyAssignSlots i j e h).2 = h ∧
    (∀ x, (moveAssignSlots i i e h).1 x = e x) ∧
    (moveAssignSlots i i e h).2 = h := by
  have hg : assignRaw (e i) (e j) h = (e i, h) := by
    rw [← hsame]; simp [assignRaw]
  refine ⟨?_, ?_, ?_, ?_⟩
  · intro x
    by_cases hx : x = i
    · simp [copyAssignSlots, hg, hx]
    · simp [copyAssignSlots, hx]
  · simp [copyAssignSlots, hg]
  · intro x; simp [moveAssignSlots]
  · simp [moveAssignSlots]

/-- C8 witness: self-assignment on two aliased non-null handles and a
self-move, over an object with counter 2. -/
theorem self_assignment_noop_witness :
    envAlias 0 = envAlias 1 ∧
    ((∀ x, (copyAssignSlots 0 1 envAlias heapTwo).1 x = envAlias x) ∧
     (copyAssignSlots 0 1 envAlias heapTwo).2 = heapTwo ∧
     (∀ x, (moveAssignSlots 0 0 envAlias heapTwo).1 x = envAlias x) ∧
     (moveAssignSlots 0 0 envAlias heapTwo).2 = heapTwo) :=
  ⟨rfl, self_assignment_noop 0 1 envAlias heapTwo rfl⟩

end Mstd
